import Mathlib

/-!
Shallow embedding of the authentication and session-control core of the
`detection_project` backend (src/backend/src/auth.rs, src/backend/src/security.rs,
and the `login` handler of src/backend/src/main.rs), together with theorems
settling the specification claims about it.

Conventions: Rust `Result<T, anyhow::Error>` becomes `Except String T` carrying
the error message string; the process-global mutable registries (`USERS`,
`REVOKED_TOKENS`, `LOGIN_ATTEMPTS`) become explicit state arguments threaded
through the operations; `Instant`/`Local::now()` timestamps become `Nat`
seconds, with `duration_since` as truncated subtraction.
-/

namespace Detection

/-! ### Data model (auth.rs) -/

/-- Claims embedded in a token (auth.rs `Claims`). -/
structure Claims where
  sub : String
  exp : Nat
  iat : Nat
  role : String
deriving DecidableEq

/-- A user record (auth.rs `User`). -/
structure User where
  username : String
  password_hash : String
  role : String
  is_active : Bool
deriving DecidableEq

/-- Login payload (auth.rs `LoginRequest`); the `validator` length rules
(username 3..50 chars, password at least 6 chars) are checked inside
`authenticate_user`. -/
structure LoginRequest where
  username : String
  password : String
deriving DecidableEq

/-- Password-change payload (auth.rs `ChangePasswordRequest`); validator rules:
username 3..50 chars, new password at least 8 chars. -/
structure ChangePasswordRequest where
  username : String
  current_password : String
  new_password : String
deriving DecidableEq

/-- Modelled from the spec: the bcrypt password hash of §4.2 (external
`bcrypt` crate, not part of this repository). A slow salted one-way hash is
modelled as an injective encoding of the password. -/
def bcryptHash (password : String) : String := "$2b$12$" ++ password

/-- Modelled from the spec: bcrypt `verify` of §4.2 — true exactly when the
stored verifier is the hash of the supplied password. -/
def bcryptVerify (password hashed : String) : Bool := hashed == bcryptHash password

/-- auth.rs `JWT_SECRET`. -/
def JWT_SECRET : String := "your-super-secret-jwt-key-change-in-production"

/-- auth.rs `TOKEN_EXPIRY_HOURS`. -/
def TOKEN_EXPIRY_HOURS : Nat := 24

/-- A signed token: the embedded claims plus the signature, modelled as the
secret the token was signed with (external `jsonwebtoken` crate). -/
structure Token where
  claims : Claims
  sig : String
deriving DecidableEq

/-- auth.rs `UserInfo`. -/
structure UserInfo where
  username : String
  role : String
deriving DecidableEq

/-- auth.rs `LoginResponse`; `expires_at` is kept as the numeric timestamp
rather than its formatted rendering. -/
structure LoginResponse where
  token : Token
  expires_at : Nat
  user : UserInfo
deriving DecidableEq

/-- Modelled from the spec: `jsonwebtoken::encode` of §4.3 — sign the claims
with the symmetric secret. -/
def jwtEncode (claims : Claims) (secret : String) : Token :=
  { claims := claims, sig := secret }

/-- Modelled from the spec: `jsonwebtoken::decode` with `Validation::default()`
of §4.3 — verify the signature against the secret, then the embedded expiry
against the current time (default leeway of 60 seconds). -/
def jwtDecode (token : Token) (secret : String) (now : Nat) : Except String Claims :=
  if token.sig ≠ secret then .error "InvalidSignature"
  else if token.claims.exp < now - 60 then .error "ExpiredSignature"
  else .ok token.claims

/-- The process-wide mutable registries of auth.rs: the `USERS` map (as an
association list keyed by username) and the `REVOKED_TOKENS` set (as a list). -/
structure AuthState where
  users : List (String × User)
  revoked : List Token
deriving DecidableEq

/-- `USERS.get(username)`. -/
def lookupUser (users : List (String × User)) (name : String) : Option User :=
  (users.find? (fun p => p.1 == name)).map Prod.snd

/-- `USERS.get_mut(username)` followed by a field update: replace the entry
stored under `name`. -/
def updateUser (users : List (String × User)) (name : String) (u : User) :
    List (String × User) :=
  users.map (fun p => if p.1 == name then (name, u) else p)

/-! ### Operations (auth.rs) -/

/-- auth.rs `authenticate_user`: input validation, user lookup, active check,
password check, then mint a token valid for `TOKEN_EXPIRY_HOURS`. -/
def authenticate_user (st : AuthState) (now : Nat) (credentials : LoginRequest) :
    Except String LoginResponse :=
  if credentials.username.length < 3 ∨ 50 < credentials.username.length ∨
      credentials.password.length < 6 then
    .error "Données invalides"
  else
    match lookupUser st.users credentials.username with
    | none => .error "Utilisateur non trouvé"
    | some user =>
      if user.is_active = false then .error "Compte désactivé"
      else if bcryptVerify credentials.password user.password_hash = false then
        .error "Mot de passe incorrect"
      else
        .ok { token := jwtEncode
                { sub := user.username
                  exp := now + TOKEN_EXPIRY_HOURS * 3600
                  iat := now
                  role := user.role } JWT_SECRET
              expires_at := now + TOKEN_EXPIRY_HOURS * 3600
              user := { username := user.username, role := user.role } }

/-- auth.rs `validate_token`: revocation check, then signature/expiry
verification, then re-check that the subject still exists and is active. -/
def validate_token (st : AuthState) (now : Nat) (token : Token) :
    Except String Claims :=
  if token ∈ st.revoked then .error "Token révoqué"
  else
    match jwtDecode token JWT_SECRET now with
    | .error e => .error e
    | .ok claims =>
      match lookupUser st.users claims.sub with
      | none => .error "Utilisateur non trouvé"
      | some user =>
        if user.is_active = false then .error "Compte désactivé"
        else .ok claims

/-- auth.rs `revoke_token`: insert the token into the revocation set and
return `Ok(())` (always succeeds, idempotent). -/
def revoke_token (st : AuthState) (token : Token) : Except String Unit × AuthState :=
  (.ok (),
    { st with revoked := if token ∈ st.revoked then st.revoked else token :: st.revoked })

/-- auth.rs `change_password`. -/
def change_password (st : AuthState) (request : ChangePasswordRequest) :
    Except String AuthState :=
  if request.username.length < 3 ∨ 50 < request.username.length ∨
      request.new_password.length < 8 then
    .error "Données invalides"
  else
    match lookupUser st.users request.username with
    | none => .error "Utilisateur non trouvé"
    | some user =>
      if bcryptVerify request.current_password user.password_hash = false then
        .error "Mot de passe actuel incorrect"
      else
        .ok { st with
                users := updateUser st.users request.username
                  { user with password_hash := bcryptHash request.new_password } }

/-- auth.rs `check_permission`: the match arms in source order — admin passes
anything, viewer passes a `viewer` or `read` requirement, everything else is
refused. -/
def check_permission (claims : Claims) (required_role : String) :
    Except String Unit :=
  if claims.role = "admin" then .ok ()
  else if claims.role = "viewer" ∧ required_role = "viewer" then .ok ()
  else if claims.role = "viewer" ∧ required_role = "read" then .ok ()
  else .error "Permissions insuffisantes"

/-- auth.rs `add_user`. -/
def add_user (st : AuthState) (username password role : String) :
    Except String AuthState :=
  if username.length < 3 ∨ 50 < username.length then
    .error "Le nom d\x27utilisateur doit contenir entre 3 et 50 caractères"
  else if password.length < 8 then
    .error "Le mot de passe doit contenir au moins 8 caractères"
  else if ¬ (role = "admin" ∨ role = "viewer") then
    .error "Rôle invalide"
  else if (lookupUser st.users username).isSome then
    .error "L\x27utilisateur existe déjà"
  else
    .ok { st with
            users := st.users ++
              [(username,
                { username := username
                  password_hash := bcryptHash password
                  role := role
                  is_active := true })] }

/-- auth.rs `deactivate_user`: clear the `is_active` flag of an existing user. -/
def deactivate_user (st : AuthState) (username : String) :
    Except String AuthState :=
  match lookupUser st.users username with
  | none => .error "Utilisateur non trouvé"
  | some user =>
    .ok { st with users := updateUser st.users username { user with is_active := false } }

/-- auth.rs `cleanup_revoked_tokens`, acting on the revocation set: when the
set holds more than 1000 entries keep the first 1000 produced by iteration
(an arbitrary subset), otherwise leave it alone. -/
def cleanup_revoked_tokens (revoked : List Token) : List Token :=
  if 1000 < revoked.length then revoked.take 1000 else revoked

/-! ### Login throttle (security.rs) -/

/-- security.rs `MAX_ATTEMPTS`. -/
def MAX_ATTEMPTS : Nat := 5

/-- security.rs `LOCKOUT_DURATION`, in seconds. -/
def LOCKOUT_DURATION : Nat := 300

/-- The lockout error message of security.rs `check_login_attempts`. -/
def lockMsg : String := "Trop de tentatives de connexion. Réessayez dans 5 minutes."

/-- The `LOGIN_ATTEMPTS` map: client key to (failure count, last-attempt time). -/
abbrev ThrottleMap := List (String × (Nat × Nat))

/-- `LOGIN_ATTEMPTS.get(ip)`. -/
def throttleLookup (attempts : ThrottleMap) (ip : String) : Option (Nat × Nat) :=
  (attempts.find? (fun p => p.1 == ip)).map Prod.snd

/-- `LOGIN_ATTEMPTS.insert(ip, v)`: replace any existing entry for `ip`. -/
def throttleInsert (attempts : ThrottleMap) (ip : String) (v : Nat × Nat) :
    ThrottleMap :=
  (ip, v) :: attempts.filter (fun p => !(p.1 == ip))

/-- security.rs `check_login_attempts`: reset the entry once the lockout
window has elapsed, refuse at `MAX_ATTEMPTS` or more recent attempts, and
otherwise count the attempt. Returns the verdict and the updated map. -/
def check_login_attempts (attempts : ThrottleMap) (ip : String) (now : Nat) :
    Except String Unit × ThrottleMap :=
  match throttleLookup attempts ip with
  | some (count, last_attempt) =>
    if LOCKOUT_DURATION < now - last_attempt then
      (.ok (), throttleInsert attempts ip (1, now))
    else if MAX_ATTEMPTS ≤ count then
      (.error lockMsg, attempts)
    else
      (.ok (), throttleInsert attempts ip (count + 1, now))
  | none => (.ok (), throttleInsert attempts ip (1, now))

/-- security.rs `reset_login_attempts`: remove the entry for `ip`. -/
def reset_login_attempts (attempts : ThrottleMap) (ip : String) : ThrottleMap :=
  attempts.filter (fun p => !(p.1 == ip))

/-! ### Login façade (main.rs `login` handler) -/

/-- main.rs `login`: throttle check first (its message is returned verbatim on
lockout), then `authenticate_user`; on success the throttle entry is reset, on
failure the error message is passed to the caller wrapped in the
`Erreur d\x27authentification:` prefix. -/
def login (st : AuthState) (attempts : ThrottleMap) (now : Nat) (client_ip : String)
    (payload : LoginRequest) : Except String LoginResponse × ThrottleMap :=
  match check_login_attempts attempts client_ip now with
  | (.error msg, attempts1) => (.error msg, attempts1)
  | (.ok _, attempts1) =>
    match authenticate_user st now payload with
    | .ok resp => (.ok resp, reset_login_attempts attempts1 client_ip)
    | .error e => (.error ("Erreur d\x27authentification: " ++ e), attempts1)

/-! ### Seed data (auth.rs `lazy_static` USERS initialization) -/

/-- The seeded `admin` user. -/
def adminUser : User :=
  { username := "admin", password_hash := bcryptHash "Admin123!"
    role := "admin", is_active := true }

/-- The seeded `viewer` user. -/
def viewerUser : User :=
  { username := "viewer", password_hash := bcryptHash "Viewer123!"
    role := "viewer", is_active := true }

/-- The initial process state: the two seed users, empty revocation set. -/
def seedState : AuthState :=
  { users := [("admin", adminUser), ("viewer", viewerUser)], revoked := [] }

/-! ### Helper lemmas about the registries -/

theorem throttleLookup_insert (attempts : ThrottleMap) (ip : String) (v : Nat × Nat) :
    throttleLookup (throttleInsert attempts ip v) ip = some v := by
  simp [throttleLookup, throttleInsert, List.find?]

theorem throttleLookup_reset (attempts : ThrottleMap) (ip : String) :
    throttleLookup (reset_login_attempts attempts ip) ip = none := by
  unfold throttleLookup reset_login_attempts
  rw [Option.map_eq_none', List.find?_eq_none]
  intro p hp
  have hmem := List.of_mem_filter hp
  simpa using hmem

theorem lookupUser_updateUser (users : List (String × User)) (name : String) (u : User) :
    lookupUser (updateUser users name u) name =
      (lookupUser users name).map (fun _ => u) := by
  induction users with
  | nil => rfl
  | cons p rest ih =>
    by_cases hp : p.1 = name
    · simp [updateUser, lookupUser, List.find?, hp]
    · have hb : (p.1 == name) = false := by simpa using hp
      simpa [updateUser, lookupUser, List.find?, hb] using ih

theorem check_login_attempts_none (attempts : ThrottleMap) (ip : String) (now : Nat)
    (h : throttleLookup attempts ip = none) :
    check_login_attempts attempts ip now = (.ok (), throttleInsert attempts ip (1, now)) := by
  unfold check_login_attempts
  rw [h]

theorem check_login_attempts_incr (attempts : ThrottleMap) (ip : String)
    (now count last : Nat)
    (h : throttleLookup attempts ip = some (count, last))
    (hw : now - last ≤ LOCKOUT_DURATION) (hc : count < MAX_ATTEMPTS) :
    check_login_attempts attempts ip now =
      (.ok (), throttleInsert attempts ip (count + 1, now)) := by
  unfold check_login_attempts
  rw [h]
  simp only [if_neg (Nat.not_lt.mpr hw), if_neg (Nat.not_le.mpr hc)]

theorem check_login_attempts_locked (attempts : ThrottleMap) (ip : String)
    (now count last : Nat)
    (h : throttleLookup attempts ip = some (count, last))
    (hw : now - last ≤ LOCKOUT_DURATION) (hc : MAX_ATTEMPTS ≤ count) :
    check_login_attempts attempts ip now = (.error lockMsg, attempts) := by
  unfold check_login_attempts
  rw [h]
  simp only [if_neg (Nat.not_lt.mpr hw), if_pos hc]

theorem check_login_attempts_window_elapsed (attempts : ThrottleMap) (ip : String)
    (now count last : Nat)
    (h : throttleLookup attempts ip = some (count, last))
    (hw : LOCKOUT_DURATION < now - last) :
    check_login_attempts attempts ip now = (.ok (), throttleInsert attempts ip (1, now)) := by
  unfold check_login_attempts
  rw [h]
  simp only [if_pos hw]

/-! ### Shared concrete inputs for witnesses -/

/-- A concrete claims value for the seeded admin user. -/
def seedClaims : Claims := { sub := "admin", exp := 100, iat := 0, role := "admin" }

/-- The token minting `seedClaims` under the process secret. -/
def seedToken : Token := jwtEncode seedClaims JWT_SECRET

/-! ### Claim theorems -/

/-- C3: `check_permission` grants a claims object with role `admin` any
required role; a claims object with role `viewer` succeeds exactly when the
required role is `viewer` or `read`; in particular viewer/admin always fails
and viewer/viewer always succeeds. -/
theorem check_permission_spec :
    (∀ (claims : Claims) (required_role : String), claims.role = "admin" →
      check_permission claims required_role = .ok ()) ∧
    (∀ (claims : Claims) (required_role : String), claims.role = "viewer" →
      (check_permission claims required_role = .ok () ↔
        (required_role = "viewer" ∨ required_role = "read"))) ∧
    (∀ claims : Claims, claims.role = "viewer" →
      check_permission claims "admin" = .error "Permissions insuffisantes") ∧
    (∀ claims : Claims, claims.role = "viewer" →
      check_permission claims "viewer" = .ok ()) := by
  refine ⟨?_, ?_, ?_, ?_⟩
  · intro claims r h
    simp [check_permission, h]
  · intro claims r h
    constructor
    · intro hok
      by_contra hcon
      push_neg at hcon
      obtain ⟨h1, h2⟩ := hcon
      simp [check_permission, h, h1, h2] at hok
    · rintro (h1 | h1) <;> subst h1 <;> simp [check_permission, h]
  · intro claims h
    simp [check_permission, h]
  · intro claims h
    simp [check_permission, h]

/-- Witness for C3 at concrete claims. -/
theorem check_permission_spec_witness :
    check_permission { sub := "a", exp := 100, iat := 0, role := "admin" } "viewer" = .ok () ∧
    check_permission { sub := "v", exp := 100, iat := 0, role := "viewer" } "admin" =
      .error "Permissions insuffisantes" ∧
    check_permission { sub := "v", exp := 100, iat := 0, role := "viewer" } "viewer" = .ok () :=
  ⟨check_permission_spec.1 { sub := "a", exp := 100, iat := 0, role := "admin" } "viewer" rfl,
   check_permission_spec.2.2.1 { sub := "v", exp := 100, iat := 0, role := "viewer" } rfl,
   check_permission_spec.2.2.2 { sub := "v", exp := 100, iat := 0, role := "viewer" } rfl⟩

/-- C4: a token that has been revoked is rejected by every subsequent
`validate_token` call with the revocation error, whatever the state, the time,
the token expiry, its signature, or the subject user. -/
theorem revoked_token_always_rejected (st : AuthState) (now : Nat) (token : Token) :
    validate_token (revoke_token st token).2 now token = .error "Token révoqué" := by
  unfold validate_token revoke_token
  by_cases h : token ∈ st.revoked <;> simp [h]

/-- C5: round trip — a token minted from any claims under the process secret
validates back to exactly the original claims, provided it is unrevoked,
unexpired, and its subject is an active user. -/
theorem token_roundtrip (st : AuthState) (now : Nat) (claims : Claims) (user : User)
    (hrev : jwtEncode claims JWT_SECRET ∉ st.revoked)
    (hexp : ¬ claims.exp < now - 60)
    (huser : lookupUser st.users claims.sub = some user)
    (hactive : user.is_active = true) :
    validate_token st now (jwtEncode claims JWT_SECRET) = .ok claims := by
  have hrev2 : ({ claims := claims, sig := JWT_SECRET } : Token) ∉ st.revoked := hrev
  unfold validate_token jwtDecode jwtEncode
  simp [hrev2, hexp, huser, hactive]

/-- Witness for C5 at the seed state. -/
theorem token_roundtrip_witness :
    validate_token seedState 0 (jwtEncode seedClaims JWT_SECRET) = .ok seedClaims :=
  token_roundtrip seedState 0 seedClaims adminUser (List.not_mem_nil _)
    (by decide) rfl rfl

/-- C8: compaction keeps exactly 1000 entries (a subset of the originals) when
the revocation set exceeds 1000, leaves it unchanged otherwise, and always
leaves at most 1000 entries. -/
theorem cleanup_revoked_tokens_spec (revoked : List Token) :
    (1000 < revoked.length →
      (cleanup_revoked_tokens revoked).length = 1000 ∧
      ∀ t ∈ cleanup_revoked_tokens revoked, t ∈ revoked) ∧
    (revoked.length ≤ 1000 → cleanup_revoked_tokens revoked = revoked) ∧
    (cleanup_revoked_tokens revoked).length ≤ 1000 := by
  unfold cleanup_revoked_tokens
  by_cases h : 1000 < revoked.length
  · simp only [if_pos h]
    refine ⟨fun _ => ⟨?_, fun t ht => List.take_subset _ _ ht⟩,
      fun hle => absurd h (Nat.not_lt.mpr hle), ?_⟩
    · rw [List.length_take]; omega
    · rw [List.length_take]; omega
  · simp only [if_neg h]
    exact ⟨fun hgt => absurd hgt h, fun _ => by trivial, by omega⟩

/-- Witness for C8 on an oversized and an undersized set. -/
theorem cleanup_revoked_tokens_witness :
    (cleanup_revoked_tokens (List.replicate 1001 seedToken)).length = 1000 ∧
    cleanup_revoked_tokens [seedToken] = [seedToken] :=
  ⟨((cleanup_revoked_tokens_spec (List.replicate 1001 seedToken)).1
      (by rw [List.length_replicate]; norm_num)).1,
   (cleanup_revoked_tokens_spec [seedToken]).2.1 (by norm_num)⟩

/-- C10: when the throttle refuses a client key (count at the maximum, window
not yet elapsed), the call returns the lockout error and the whole map —
including that key's count and window-start timestamp — unchanged. -/
theorem locked_attempt_leaves_throttle_unchanged (attempts : ThrottleMap)
    (ip : String) (now count last : Nat)
    (h : throttleLookup attempts ip = some (count, last))
    (hw : now - last ≤ LOCKOUT_DURATION) (hc : MAX_ATTEMPTS ≤ count) :
    check_login_attempts attempts ip now = (.error lockMsg, attempts) ∧
    throttleLookup (check_login_attempts attempts ip now).2 ip = some (count, last) := by
  have e := check_login_attempts_locked attempts ip now count last h hw hc
  exact ⟨e, by rw [e]; exact h⟩

/-- Witness for C10 at a concrete locked entry. -/
theorem locked_attempt_leaves_throttle_unchanged_witness :
    check_login_attempts [("1.2.3.4", (5, 0))] "1.2.3.4" 100 =
      (.error lockMsg, [("1.2.3.4", (5, 0))]) :=
  (locked_attempt_leaves_throttle_unchanged [("1.2.3.4", (5, 0))] "1.2.3.4" 100 5 0
    rfl (by decide) (by decide)).1

/-- C1 counterexample: the caller-visible login outcome is not one uniform
error — an unknown username and a wrong password for an existing user produce
two different error messages, so the returned error reveals which credential
stage failed. -/
theorem uniform_credential_error_counterexample :
    (login seedState [] 0 "1.2.3.4" ⟨"nobody", "Admin123!"⟩).1 =
      .error "Erreur d\x27authentification: Utilisateur non trouvé" ∧
    (login seedState [] 0 "1.2.3.4" ⟨"admin", "wrongpassword"⟩).1 =
      .error "Erreur d\x27authentification: Mot de passe incorrect" ∧
    ("Erreur d\x27authentification: Utilisateur non trouvé" : String) ≠
      "Erreur d\x27authentification: Mot de passe incorrect" :=
  ⟨rfl, rfl, by decide⟩

/-- C1 amended: each credential-stage failure yields its own distinct error —
unknown user, inactive user, and wrong password each return a different
message, which the login handler passes through to the caller. -/
theorem credential_errors_reveal_cause (st : AuthState) (now : Nat)
    (credentials : LoginRequest)
    (hshape : ¬ (credentials.username.length < 3 ∨ 50 < credentials.username.length ∨
      credentials.password.length < 6)) :
    (lookupUser st.users credentials.username = none →
      authenticate_user st now credentials = .error "Utilisateur non trouvé") ∧
    (∀ user, lookupUser st.users credentials.username = some user →
      user.is_active = false →
      authenticate_user st now credentials = .error "Compte désactivé") ∧
    (∀ user, lookupUser st.users credentials.username = some user →
      user.is_active = true →
      bcryptVerify credentials.password user.password_hash = false →
      authenticate_user st now credentials = .error "Mot de passe incorrect") := by
  refine ⟨?_, ?_, ?_⟩
  · intro hnone
    unfold authenticate_user
    rw [if_neg hshape, hnone]
  · intro user hsome hinactive
    unfold authenticate_user
    rw [if_neg hshape, hsome]
    simp [hinactive]
  · intro user hsome hactive hverify
    unfold authenticate_user
    rw [if_neg hshape, hsome]
    simp [hactive, hverify]

/-- Witness for the amended C1 at a concrete unknown username. -/
theorem credential_errors_reveal_cause_witness :
    authenticate_user seedState 0 ⟨"nobody", "Admin123!"⟩ =
      .error "Utilisateur non trouvé" :=
  (credential_errors_reveal_cause seedState 0 ⟨"nobody", "Admin123!"⟩ (by decide)).1 rfl

/-- C6: once `deactivate_user` has succeeded, every outstanding token for that
username is rejected with the inactive-account error, even though the token is
unrevoked, correctly signed, and unexpired; and the signature is checked
before the active flag — a badly signed token fails with the signature error
instead. -/
theorem deactivated_user_tokens_rejected (st st' : AuthState) (username : String)
    (now : Nat) (token : Token)
    (hdeact : deactivate_user st username = .ok st')
    (hsub : token.claims.sub = username)
    (hrev : token ∉ st'.revoked)
    (hsig : token.sig = JWT_SECRET)
    (hexp : ¬ token.claims.exp < now - 60) :
    validate_token st' now token = .error "Compte désactivé" ∧
    (∀ t : Token, t ∉ st'.revoked → t.sig ≠ JWT_SECRET →
      validate_token st' now t = .error "InvalidSignature") := by
  unfold deactivate_user at hdeact
  cases hu : lookupUser st.users username with
  | none => rw [hu] at hdeact; exact absurd hdeact (by simp)
  | some user =>
    rw [hu] at hdeact
    injection hdeact with hst
    subst hst
    constructor
    · have hlook : lookupUser
          (updateUser st.users username { user with is_active := false }) username =
          some { user with is_active := false } := by
        rw [lookupUser_updateUser, hu]; rfl
      unfold validate_token jwtDecode
      rw [if_neg hrev]
      simp only [hsig, hsub]
      simp [hexp, hsub, hlook]
    · intro t ht hsig2
      unfold validate_token jwtDecode
      rw [if_neg ht]
      simp [hsig2]

/-- The seed state after deactivating the admin user. -/
def deactState : AuthState :=
  { users := [("admin", { adminUser with is_active := false }), ("viewer", viewerUser)]
    revoked := [] }

/-- Witness for C6: deactivating `admin` makes the seed admin token fail with
the inactive-account error. -/
theorem deactivated_user_tokens_rejected_witness :
    deactivate_user seedState "admin" = .ok deactState ∧
    validate_token deactState 0 seedToken = .error "Compte désactivé" :=
  ⟨rfl, (deactivated_user_tokens_rejected seedState deactState "admin" 0 seedToken
      rfl rfl (List.not_mem_nil _) rfl (by decide)).1⟩

/-- C7: a successful login removes the caller's throttle entry, so the next
(failed) attempt from that key is counted from a fresh count of exactly one. -/
theorem successful_login_resets_counter (st : AuthState)
    (attempts attempts' : ThrottleMap) (now : Nat) (ip : String)
    (payload : LoginRequest) (resp : LoginResponse)
    (h : login st attempts now ip payload = (.ok resp, attempts')) :
    throttleLookup attempts' ip = none ∧
    ∀ t, check_login_attempts attempts' ip t = (.ok (), throttleInsert attempts' ip (1, t)) := by
  unfold login at h
  rcases hc : check_login_attempts attempts ip now with ⟨e, m1⟩
  rw [hc] at h
  cases e with
  | error msg => simp at h
  | ok u =>
    cases ha : authenticate_user st now payload with
    | error e2 => rw [ha] at h; simp at h
    | ok r =>
      rw [ha] at h
      simp only [Prod.mk.injEq] at h
      obtain ⟨-, h2⟩ := h
      rw [← h2]
      exact ⟨throttleLookup_reset _ _, fun t =>
        check_login_attempts_none _ _ _ (throttleLookup_reset _ _)⟩

/-- The response of the seed admin's successful login at time 0. -/
def seedLoginResponse : LoginResponse :=
  { token := jwtEncode { sub := "admin", exp := 86400, iat := 0, role := "admin" } JWT_SECRET
    expires_at := 86400
    user := { username := "admin", role := "admin" } }

/-- Witness for C7: a successful admin login wipes an existing count of 3. -/
theorem successful_login_resets_counter_witness :
    login seedState [("1.2.3.4", (3, 0))] 0 "1.2.3.4" ⟨"admin", "Admin123!"⟩ =
      (.ok seedLoginResponse, []) ∧
    throttleLookup ([] : ThrottleMap) "1.2.3.4" = none :=
  ⟨rfl, (successful_login_resets_counter seedState [("1.2.3.4", (3, 0))] [] 0 "1.2.3.4"
      ⟨"admin", "Admin123!"⟩ seedLoginResponse rfl).1⟩

/-- The throttle map after a sequence of failed login attempts at the given
times: a failed `login` leaves the map produced by its `check_login_attempts`
call (no reset happens), so replaying failures is folding that call. -/
def failed_attempts (attempts : ThrottleMap) (ip : String) : List Nat → ThrottleMap
  | [] => attempts
  | t :: ts => failed_attempts (check_login_attempts attempts ip t).2 ip ts

/-- C2: starting from a clean key, after exactly `MAX_ATTEMPTS` = 5
consecutive failed logins each within the 5-minute window of the previous
one, the next `login` call within the window returns the lockout error —
whatever credentials it carries — and once more than `LOCKOUT_DURATION` = 300
seconds have passed since the fifth failure the throttle admits attempts
again. -/
theorem lockout_after_max_failures (st : AuthState) (attempts : ThrottleMap)
    (ip : String) (t1 t2 t3 t4 t5 t6 : Nat) (payload : LoginRequest)
    (h0 : throttleLookup attempts ip = none)
    (h12 : t2 - t1 ≤ LOCKOUT_DURATION) (h23 : t3 - t2 ≤ LOCKOUT_DURATION)
    (h34 : t4 - t3 ≤ LOCKOUT_DURATION) (h45 : t5 - t4 ≤ LOCKOUT_DURATION)
    (h56 : t6 - t5 ≤ LOCKOUT_DURATION) :
    (login st (failed_attempts attempts ip [t1, t2, t3, t4, t5]) t6 ip payload).1 =
      .error lockMsg ∧
    ∀ t7, LOCKOUT_DURATION < t7 - t5 →
      (check_login_attempts (failed_attempts attempts ip [t1, t2, t3, t4, t5]) ip t7).1 =
        .ok () := by
  have e1 := check_login_attempts_none attempts ip t1 h0
  have l1 : throttleLookup (check_login_attempts attempts ip t1).2 ip = some (1, t1) := by
    rw [e1]; exact throttleLookup_insert _ _ _
  have e2 := check_login_attempts_incr _ ip t2 1 t1 l1 h12 (by decide)
  have l2 : throttleLookup (check_login_attempts
      (check_login_attempts attempts ip t1).2 ip t2).2 ip = some (2, t2) := by
    rw [e2]; exact throttleLookup_insert _ _ _
  have e3 := check_login_attempts_incr _ ip t3 2 t2 l2 h23 (by decide)
  have l3 : throttleLookup (check_login_attempts (check_login_attempts
      (check_login_attempts attempts ip t1).2 ip t2).2 ip t3).2 ip = some (3, t3) := by
    rw [e3]; exact throttleLookup_insert _ _ _
  have e4 := check_login_attempts_incr _ ip t4 3 t3 l3 h34 (by decide)
  have l4 : throttleLookup (check_login_attempts (check_login_attempts
      (check_login_attempts (check_login_attempts attempts ip t1).2 ip t2).2
      ip t3).2 ip t4).2 ip = some (4, t4) := by
    rw [e4]; exact throttleLookup_insert _ _ _
  have e5 := check_login_attempts_incr _ ip t5 4 t4 l4 h45 (by decide)
  have l5 : throttleLookup (failed_attempts attempts ip [t1, t2, t3, t4, t5]) ip =
      some (5, t5) := by
    show throttleLookup (check_login_attempts (check_login_attempts
      (check_login_attempts (check_login_attempts
      (check_login_attempts attempts ip t1).2 ip t2).2 ip t3).2 ip t4).2 ip t5).2 ip =
      some (5, t5)
    rw [e5]; exact throttleLookup_insert _ _ _
  have e6 := check_login_attempts_locked _ ip t6 5 t5 l5 h56 (by decide)
  constructor
  · unfold login
    rw [e6]
  · intro t7 h7
    rw [check_login_attempts_window_elapsed _ ip t7 5 t5 l5 h7]

/-- Witness for C2: five immediate failures from one address lock out a sixth
attempt that carries the correct admin credentials. -/
theorem lockout_after_max_failures_witness :
    (login seedState (failed_attempts [] "1.2.3.4" [0, 0, 0, 0, 0]) 0 "1.2.3.4"
      ⟨"admin", "Admin123!"⟩).1 = .error lockMsg :=
  (lockout_after_max_failures seedState [] "1.2.3.4" 0 0 0 0 0 0 ⟨"admin", "Admin123!"⟩
    rfl (by decide) (by decide) (by decide) (by decide) (by decide)).1

/-- A result is a typed outcome: success, or an error drawn from the
operation's fixed message set. -/
def ExceptTotal {α : Type} (x : Except String α) (msgs : List String) : Prop :=
  (∃ v, x = .ok v) ∨ ∃ e, x = .error e ∧ e ∈ msgs

/-- Case split for the modelled token decoder: it always yields the claims or
one of its two error messages. -/
theorem jwtDecode_cases (token : Token) (secret : String) (now : Nat) :
    jwtDecode token secret now = .ok token.claims ∨
    jwtDecode token secret now = .error "InvalidSignature" ∨
    jwtDecode token secret now = .error "ExpiredSignature" := by
  unfold jwtDecode
  split
  · exact Or.inr (Or.inl rfl)
  · split
    · exact Or.inr (Or.inr rfl)
    · exact Or.inl rfl

/-- C9: none of the core operations can escape with anything but a typed
result — on every input each returns `.ok`, or `.error` with one of the
messages fixed in its source, never an untyped crash. -/
theorem core_operations_no_panic (st : AuthState) (now : Nat)
    (credentials : LoginRequest) (token : Token) (request : ChangePasswordRequest)
    (claims : Claims) (required_role username password role ip : String)
    (attempts : ThrottleMap) :
    ExceptTotal (authenticate_user st now credentials)
      ["Données invalides", "Utilisateur non trouvé", "Compte désactivé",
       "Mot de passe incorrect"] ∧
    ExceptTotal (validate_token st now token)
      ["Token révoqué", "InvalidSignature", "ExpiredSignature",
       "Utilisateur non trouvé", "Compte désactivé"] ∧
    (revoke_token st token).1 = .ok () ∧
    ExceptTotal (change_password st request)
      ["Données invalides", "Utilisateur non trouvé", "Mot de passe actuel incorrect"] ∧
    ExceptTotal (check_permission claims required_role) ["Permissions insuffisantes"] ∧
    ExceptTotal (add_user st username password role)
      ["Le nom d\x27utilisateur doit contenir entre 3 et 50 caractères",
       "Le mot de passe doit contenir au moins 8 caractères", "Rôle invalide",
       "L\x27utilisateur existe déjà"] ∧
    ExceptTotal (deactivate_user st username) ["Utilisateur non trouvé"] ∧
    ExceptTotal (check_login_attempts attempts ip now).1 [lockMsg] := by
  refine ⟨?_, ?_, rfl, ?_, ?_, ?_, ?_, ?_⟩
  · unfold ExceptTotal authenticate_user
    split
    · exact Or.inr ⟨_, rfl, by simp⟩
    · split
      · exact Or.inr ⟨_, rfl, by simp⟩
      · split
        · exact Or.inr ⟨_, rfl, by simp⟩
        · split
          · exact Or.inr ⟨_, rfl, by simp⟩
          · exact Or.inl ⟨_, rfl⟩
  · unfold ExceptTotal validate_token
    split
    · exact Or.inr ⟨_, rfl, by simp⟩
    · rcases jwtDecode_cases token JWT_SECRET now with hd | hd | hd <;> simp only [hd]
      · split
        · exact Or.inr ⟨_, rfl, by simp⟩
        · split
          · exact Or.inr ⟨_, rfl, by simp⟩
          · exact Or.inl ⟨_, rfl⟩
      · exact Or.inr ⟨_, rfl, by simp⟩
      · exact Or.inr ⟨_, rfl, by simp⟩
  · unfold ExceptTotal change_password
    split
    · exact Or.inr ⟨_, rfl, by simp⟩
    · split
      · exact Or.inr ⟨_, rfl, by simp⟩
      · split
        · exact Or.inr ⟨_, rfl, by simp⟩
        · exact Or.inl ⟨_, rfl⟩
  · unfold ExceptTotal check_permission
    split
    · exact Or.inl ⟨_, rfl⟩
    · split
      · exact Or.inl ⟨_, rfl⟩
      · split
        · exact Or.inl ⟨_, rfl⟩
        · exact Or.inr ⟨_, rfl, by simp⟩
  · unfold ExceptTotal add_user
    split
    · exact Or.inr ⟨_, rfl, by simp⟩
    · split
      · exact Or.inr ⟨_, rfl, by simp⟩
      · split
        · exact Or.inr ⟨_, rfl, by simp⟩
        · split
          · exact Or.inr ⟨_, rfl, by simp⟩
          · exact Or.inl ⟨_, rfl⟩
  · unfold ExceptTotal deactivate_user
    split
    · exact Or.inr ⟨_, rfl, by simp⟩
    · exact Or.inl ⟨_, rfl⟩
  · unfold ExceptTotal check_login_attempts
    split
    · split
      · exact Or.inl ⟨_, rfl⟩
      · split
        · exact Or.inr ⟨_, rfl, by simp⟩
        · exact Or.inl ⟨_, rfl⟩
    · exact Or.inl ⟨_, rfl⟩

end Detection
